import Mathlib

/-!
# node-cpal — formal model and verification

Shallow embedding of the node-cpal audio library.  The repository ships the
JavaScript loader (`src/index.js`), TypeScript declarations, tests and
examples; the stream engine itself is a native binary that is not part of the
source tree.  Definitions for the engine are therefore modelled from the
specification (each such definition says so in its doc comment); the loader
`getBinding` is embedded directly from `src/index.js`.
-/

namespace Cpal

/-- Sample formats, from `index.d.ts`: `'i16' | 'u16' | 'f32'`. -/
inductive SampleFormat
  | i16
  | u16
  | f32
  deriving DecidableEq, Repr

/-- Modelled from the spec: a sample value crossing the engine boundary.
Float32 values are represented exactly: finite values as rationals, plus the
non-finite IEEE values `+∞`, `-∞` and `NaN`, which the spec says the engine
passes through unmodified. -/
inductive Sample
  | finite : ℚ → Sample
  | posInf
  | negInf
  | nan
  deriving DecidableEq, Repr

/-- `StreamConfig` from `index.d.ts` / spec §3: sample rate, channel count and
sample format. -/
structure StreamConfig where
  sampleRate : ℕ
  channels : ℕ
  sampleFormat : SampleFormat
  deriving DecidableEq, Repr

/-- `ConfigRange` (`AudioDeviceConfig` in `index.d.ts`): one supported
capability band reported by the device driver. -/
structure ConfigRange where
  minSampleRate : ℕ
  maxSampleRate : ℕ
  channels : ℕ
  sampleFormat : SampleFormat
  deriving DecidableEq, Repr

/-- Modelled from the spec: a `StreamConfig` lies within a `ConfigRange` when
its rate falls in the band and channel count and format match. -/
def configInRange (c : StreamConfig) (r : ConfigRange) : Bool :=
  r.minSampleRate ≤ c.sampleRate && c.sampleRate ≤ r.maxSampleRate &&
    c.channels == r.channels && c.sampleFormat == r.sampleFormat

/-- Stream direction (`isInput` flag of `createStream`). -/
inductive Direction
  | input
  | output
  deriving DecidableEq, Repr

/-- Modelled from the spec §4.2: in-registry lifecycle states.  `Closed`
streams are removed from the registry, so they do not appear here. -/
inductive LifecycleState
  | running
  | paused
  deriving DecidableEq, Repr

/-- Device descriptor (spec §3, `AudioDevice` in `index.d.ts`), restricted to
the fields the stream engine consults. -/
structure Device where
  deviceId : String
  supportedInput : List ConfigRange
  supportedOutput : List ConfigRange
  deriving DecidableEq, Repr

/-- The config ranges a device reports for a direction. -/
def Device.ranges (d : Device) : Direction → List ConfigRange
  | .input => d.supportedInput
  | .output => d.supportedOutput

/-- Modelled from the spec §3: a live stream owned by the engine registry:
owning device, direction, active config, lifecycle state, whether a valid
`onData` callable is registered, and its Transport Buffer (bounded queue of
samples with its capacity). -/
structure Stream where
  device : String
  direction : Direction
  config : StreamConfig
  state : LifecycleState
  onData : Bool
  capacity : ℕ
  queued : List Sample
  deriving DecidableEq, Repr

/-- Error kinds, spec §7. -/
inductive CpalError
  | platformUnavailable
  | hostNotFound
  | deviceNotFound
  | noDefaultDevice
  | noSupportedConfig
  | unsupportedConfig
  | invalidConfig
  | invalidCallback
  | invalidBufferSize
  | streamNotFound
  | streamNotActive
  | bufferFull
  deriving DecidableEq, Repr

/-- Modelled from the spec §3: process-wide engine state — the available
devices, the next fresh stream id and the registry mapping stream id to
`Stream`. -/
structure Engine where
  devices : List Device
  nextId : ℕ
  streams : List (ℕ × Stream)
  deriving DecidableEq, Repr

/-- Device lookup by id. -/
def findDevice (e : Engine) (deviceId : String) : Option Device :=
  e.devices.find? (fun d => d.deviceId == deviceId)

/-- Registry lookup by stream handle. -/
def findStream (e : Engine) (h : ℕ) : Option Stream :=
  (e.streams.find? (fun p => p.1 == h)).map (·.2)

/-- Replace the registry entry for a handle by applying `f` to its stream. -/
def updateStream (e : Engine) (h : ℕ) (f : Stream → Stream) : Engine :=
  { e with streams := e.streams.map (fun p => if p.1 == h then (p.1, f p.2) else p) }

/-- Modelled from the spec §4.2: the Transport Buffer is "sized proportionally
to `config.sampleRate × config.channels × targetLatencyMs`"; the latency
target is a fixed engine constant (milliseconds). -/
def targetLatencyMs : ℕ := 100

/-- Transport Buffer capacity for a config (samples). -/
def bufferCapacity (c : StreamConfig) : ℕ :=
  c.sampleRate * c.channels * targetLatencyMs / 1000

/-- Modelled from the spec §4.2 `createStream`: validates the config (fails
`InvalidConfig` if `channels = 0` or `sampleRate = 0`), resolves the device
(fails `DeviceNotFound`), checks the config against the device's reported
ranges (fails `UnsupportedConfig` if outside all of them), requires a valid
callable for input streams (fails `InvalidCallback`), allocates the Transport
Buffer and registers the stream as `Running`, returning the fresh handle. -/
def createStream (e : Engine) (deviceId : String) (dir : Direction)
    (cfg : StreamConfig) (onData : Bool) : Except CpalError (Engine × ℕ) :=
  if cfg.channels == 0 || cfg.sampleRate == 0 then
    .error .invalidConfig
  else
    match findDevice e deviceId with
    | none => .error .deviceNotFound
    | some d =>
      if (d.ranges dir).any (configInRange cfg) then
        if dir == .input && !onData then
          .error .invalidCallback
        else
          let s : Stream :=
            { device := deviceId, direction := dir, config := cfg,
              state := .running, onData := onData,
              capacity := bufferCapacity cfg, queued := [] }
          .ok ({ e with nextId := e.nextId + 1,
                        streams := (e.nextId, s) :: e.streams }, e.nextId)
      else
        .error .unsupportedConfig

/-- Modelled from the spec §4.2 `writeToStream`: fails `StreamNotFound` for an
unknown or closed handle, `InvalidBufferSize` for an empty buffer (for any
stream state), `StreamNotActive` when the stream is not an output stream in
`Running` state, `BufferFull` when the samples do not fit the Transport
Buffer's remaining capacity (never blocking); otherwise enqueues the samples
unmodified (no clamping or sanitization of values). -/
def writeToStream (e : Engine) (h : ℕ) (samples : List Sample) :
    Except CpalError Engine :=
  match findStream e h with
  | none => .error .streamNotFound
  | some s =>
    if samples.isEmpty then .error .invalidBufferSize
    else
      match s.direction with
      | .input => .error .streamNotActive
      | .output =>
        match s.state with
        | .paused => .error .streamNotActive
        | .running =>
          if s.capacity < s.queued.length + samples.length then
            .error .bufferFull
          else
            .ok (updateStream e h (fun t => { t with queued := t.queued ++ samples }))

/-- Modelled from the spec §4.2 `pauseStream`: `StreamNotFound` on an unknown
or closed handle; otherwise sets the state to `Paused` (idempotent no-op when
already paused). -/
def pauseStream (e : Engine) (h : ℕ) : Except CpalError Engine :=
  match findStream e h with
  | none => .error .streamNotFound
  | some _ => .ok (updateStream e h (fun t => { t with state := .paused }))

/-- Modelled from the spec §4.2 `resumeStream`: `StreamNotFound` on an unknown
or closed handle; otherwise sets the state to `Running` (no-op success when
not paused). -/
def resumeStream (e : Engine) (h : ℕ) : Except CpalError Engine :=
  match findStream e h with
  | none => .error .streamNotFound
  | some _ => .ok (updateStream e h (fun t => { t with state := .running }))

/-- Modelled from the spec §4.2 / tests: `isStreamActive` is true iff the
handle is registered in `Running` state; for an unknown (hence also closed,
since closing removes the registry entry) handle it returns `false` rather
than raising, matching the observed behavior the spec's open question and
`stream_write.test.js` record. -/
def isStreamActive (e : Engine) (h : ℕ) : Bool :=
  match findStream e h with
  | none => false
  | some s => s.state == .running

/-- Modelled from the spec §4.2 `closeStream`: `StreamNotFound` on an unknown
handle; otherwise stops the platform callback, releases the Transport Buffer
and removes the stream from the registry (so a second close fails
`StreamNotFound`). -/
def closeStream (e : Engine) (h : ℕ) : Except CpalError Engine :=
  match findStream e h with
  | none => .error .streamNotFound
  | some _ => .ok { e with streams := e.streams.filter (fun p => p.1 != h) }

/-! ## Registry lemmas -/

theorem find?_key_filter_ne (l : List (ℕ × Stream)) (h : ℕ) :
    (l.filter (fun p => p.1 != h)).find? (fun p => p.1 == h) = none := by
  rw [List.find?_eq_none]
  intro x hx
  have hne := (List.mem_filter.mp hx).2
  simp only [bne_iff_ne, ne_eq] at hne
  simpa using hne

theorem find?_key_map_update (l : List (ℕ × Stream)) (h : ℕ) (f : Stream → Stream) :
    (l.map (fun p => if p.1 == h then (p.1, f p.2) else p)).find? (fun p => p.1 == h)
      = (l.find? (fun p => p.1 == h)).map (fun p => (p.1, f p.2)) := by
  induction l with
  | nil => simp
  | cons a t ih =>
    by_cases hk : a.1 = h
    · simp [hk]
    · have hb : (a.1 == h) = false := by simpa using hk
      simp only [List.map_cons, hb, Bool.false_eq_true, if_false, List.find?_cons, ih]

theorem findStream_updateStream (e : Engine) (h : ℕ) (f : Stream → Stream) :
    findStream (updateStream e h f) h = (findStream e h).map f := by
  simp only [findStream, updateStream, find?_key_map_update]
  cases e.streams.find? (fun p => p.1 == h) <;> simp

theorem closeStream_ok (e e' : Engine) (h : ℕ) (hc : closeStream e h = .ok e') :
    e' = { e with streams := e.streams.filter (fun p => p.1 != h) } := by
  unfold closeStream at hc
  cases hfind : findStream e h with
  | none => rw [hfind] at hc; exact absurd hc (by simp)
  | some s => rw [hfind] at hc; exact (Except.ok.injEq _ _ ▸ hc).symm

theorem findStream_after_close (e e' : Engine) (h : ℕ)
    (hc : closeStream e h = .ok e') : findStream e' h = none := by
  rw [closeStream_ok e e' h hc]
  simp [findStream, find?_key_filter_ne]

/-! ## C1 — operations on a closed stream -/

/-- C1: after `closeStream(h)` succeeds, `writeToStream`, `pauseStream` and
`resumeStream` on `h` all fail with `StreamNotFound`, while `isStreamActive h`
returns `false` without raising an error. -/
theorem closed_stream_operations (e e' : Engine) (h : ℕ)
    (hc : closeStream e h = .ok e') :
    (∀ samples, writeToStream e' h samples = .error .streamNotFound) ∧
    pauseStream e' h = .error .streamNotFound ∧
    resumeStream e' h = .error .streamNotFound ∧
    isStreamActive e' h = false := by
  have hnone := findStream_after_close e e' h hc
  refine ⟨fun samples => ?_, ?_, ?_, ?_⟩ <;>
    simp [writeToStream, pauseStream, resumeStream, isStreamActive, hnone]

/-- A concrete 44100 Hz stereo float32 config, used by concrete instances. -/
def demoConfig : StreamConfig := ⟨44100, 2, .f32⟩

/-- A concrete running output stream bound to `demoConfig`. -/
def demoStream : Stream := ⟨"dev0", .output, demoConfig, .running, false, 8820, []⟩

/-- A concrete engine whose registry holds `demoStream` under handle 0. -/
def demoEngine : Engine := ⟨[], 1, [(0, demoStream)]⟩

/-- Witness for C1 on a concrete engine with one open stream. -/
theorem closed_stream_operations_witness :
    ∃ e' : Engine,
      closeStream demoEngine 0 = .ok e' ∧
      writeToStream e' 0 [Sample.nan] = .error .streamNotFound ∧
      pauseStream e' 0 = .error .streamNotFound ∧
      resumeStream e' 0 = .error .streamNotFound ∧
      isStreamActive e' 0 = false := by
  refine ⟨_, rfl, ?_⟩
  have h := closed_stream_operations demoEngine _ 0 rfl
  exact ⟨h.1 [Sample.nan], h.2⟩

/-! ## C2 — createStream on a supported config -/

/-- C2: when the config lies within some `ConfigRange` the device reports for
the requested direction (and is a well-formed `StreamConfig`: positive rate
and channels, with a valid callable for input streams), `createStream`
succeeds and the returned handle is immediately `isStreamActive = true`. -/
theorem createStream_supported_active (e : Engine) (deviceId : String)
    (dir : Direction) (cfg : StreamConfig) (onData : Bool) (d : Device)
    (hd : findDevice e deviceId = some d)
    (hr : (d.ranges dir).any (configInRange cfg) = true)
    (hrate : 0 < cfg.sampleRate) (hch : 0 < cfg.channels)
    (hcb : dir = .input → onData = true) :
    ∃ e', createStream e deviceId dir cfg onData = .ok (e', e.nextId) ∧
      isStreamActive e' e.nextId = true := by
  have hcb' : (dir == .input && !onData) = false := by
    cases dir with
    | input => simp [hcb rfl]
    | output => simp
  refine ⟨⟨e.devices, e.nextId + 1,
    (e.nextId, ⟨deviceId, dir, cfg, .running, onData, bufferCapacity cfg, []⟩)
      :: e.streams⟩, ?_, ?_⟩
  · unfold createStream
    rw [hd]
    simp [Nat.pos_iff_ne_zero.mp hrate, Nat.pos_iff_ne_zero.mp hch, hr, hcb']
  · simp [isStreamActive, findStream]

/-- A concrete device reporting an 8000–48000 Hz stereo f32 output range. -/
def demoDevice : Device := ⟨"dev0", [], [⟨8000, 48000, 2, .f32⟩]⟩

/-- A concrete engine that knows `demoDevice` and has no open stream. -/
def demoFreshEngine : Engine := ⟨[demoDevice], 0, []⟩

/-- Witness for C2: `demoDevice` asked for 44100 Hz stereo f32 output. -/
theorem createStream_supported_active_witness :
    ∃ e', createStream demoFreshEngine "dev0" .output demoConfig false
        = .ok (e', 0) ∧ isStreamActive e' 0 = true := by
  have h := createStream_supported_active demoFreshEngine "dev0" .output
    demoConfig false demoDevice (by decide) (by decide) (by decide) (by decide)
    (by intro hdir; cases hdir)
  exact h

/-! ## C4 — empty buffer -/

/-- C4: for every registered stream handle, writing a zero-length buffer fails
with `InvalidBufferSize`, regardless of the stream's direction and lifecycle
state. -/
theorem write_empty_buffer (e : Engine) (h : ℕ) (s : Stream)
    (hf : findStream e h = some s) :
    writeToStream e h [] = .error .invalidBufferSize := by
  simp [writeToStream, hf]

/-- Witness for C4 on the concrete `demoEngine`. -/
theorem write_empty_buffer_witness :
    writeToStream demoEngine 0 [] = .error .invalidBufferSize :=
  write_empty_buffer demoEngine 0 demoStream rfl

/-! ## C5 — pause/resume idempotence -/

theorem updateStream_idem (e : Engine) (h : ℕ) (f : Stream → Stream)
    (hf : ∀ s, f (f s) = f s) :
    updateStream (updateStream e h f) h f = updateStream e h f := by
  show ({ e with streams := _ } : Engine) = { e with streams := _ }
  simp only [updateStream, List.map_map]
  refine congrArg _ (List.map_congr_left fun p _ => ?_)
  by_cases hk : p.1 = h
  · simp [hk, hf]
  · simp [hk]

theorem find?_eq_of_mem_nodup_keys (l : List (ℕ × Stream))
    (hnd : (l.map Prod.fst).Nodup) (k : ℕ) (q p : ℕ × Stream)
    (hq : l.find? (fun r => r.1 == k) = some q)
    (hp : p ∈ l) (hph : p.1 = k) : p = q := by
  induction l with
  | nil => cases hp
  | cons a t ih =>
    rw [List.map_cons, List.nodup_cons] at hnd
    rcases List.mem_cons.mp hp with rfl | hpt
    · rw [List.find?_cons_of_pos _ (by simpa using hph)] at hq
      exact Option.some.inj hq
    · by_cases ha : a.1 = k
      · exfalso
        apply hnd.1
        have hmem : p.1 ∈ t.map Prod.fst := List.mem_map_of_mem Prod.fst hpt
        rwa [hph, ← ha] at hmem
      · rw [List.find?_cons_of_neg _ (by simpa using ha)] at hq
        exact ih hnd.2 hq hpt

theorem setRunning_eq_self (s : Stream) (hs : s.state = .running) :
    ({ s with state := .running } : Stream) = s := by
  cases s
  cases hs
  rfl

/-- C5: on any registered stream handle, pausing twice in a row succeeds with
the second pause a no-op; resuming twice in a row succeeds with the second
resume a no-op; and (for a registry with unique handles) resuming a stream
that is not paused is a no-op success, leaving the engine unchanged. -/
theorem pause_resume_idempotent (e : Engine) (h : ℕ) (s : Stream)
    (hf : findStream e h = some s) :
    (∃ e1, pauseStream e h = .ok e1 ∧ pauseStream e1 h = .ok e1) ∧
    (∃ e2, resumeStream e h = .ok e2 ∧ resumeStream e2 h = .ok e2) ∧
    ((e.streams.map Prod.fst).Nodup → s.state = .running →
      resumeStream e h = .ok e) := by
  refine ⟨?_, ?_, ?_⟩
  · refine ⟨updateStream e h (fun t => { t with state := .paused }), ?_, ?_⟩
    · simp [pauseStream, hf]
    · have hf1 : findStream (updateStream e h (fun t => { t with state := .paused })) h
          = some { s with state := .paused } := by
        rw [findStream_updateStream, hf]; rfl
      simp [pauseStream, hf1,
        updateStream_idem e h (fun t => { t with state := .paused }) (fun t => rfl)]
  · refine ⟨updateStream e h (fun t => { t with state := .running }), ?_, ?_⟩
    · simp [resumeStream, hf]
    · have hf1 : findStream (updateStream e h (fun t => { t with state := .running })) h
          = some { s with state := .running } := by
        rw [findStream_updateStream, hf]; rfl
      simp [resumeStream, hf1,
        updateStream_idem e h (fun t => { t with state := .running }) (fun t => rfl)]
  · intro hnd hrun
    obtain ⟨q, hq, hmap⟩ := Option.map_eq_some'.mp hf
    have hq' := List.find?_some hq
    have hqk : q.1 = h := by simpa using hq'
    have hupd : updateStream e h (fun t => { t with state := .running }) = e := by
      show ({ e with streams := _ } : Engine) = e
      have hmapid : e.streams.map
          (fun p => if p.1 == h then (p.1, { p.2 with state := .running }) else p)
            = e.streams := by
        refine Eq.trans (List.map_congr_left fun p hp => ?_) (List.map_id _)
        by_cases hk : p.1 = h
        · have hpq : p = q := find?_eq_of_mem_nodup_keys e.streams hnd h q p hq hp hk
          have hstate : p.2.state = .running := by rw [hpq, hmap]; exact hrun
          rw [if_pos (show (p.1 == h) = true by simpa using hk),
            setRunning_eq_self p.2 hstate]
          exact Prod.mk.eta
        · rw [if_neg (show ¬(p.1 == h) = true by simpa using hk)]
          rfl
      rw [hmapid]
    rw [resumeStream, hf]
    rw [hupd]

/-- Witness for C5 on the concrete `demoEngine`. -/
theorem pause_resume_idempotent_witness :
    (∃ e1, pauseStream demoEngine 0 = .ok e1 ∧ pauseStream e1 0 = .ok e1) ∧
    (∃ e2, resumeStream demoEngine 0 = .ok e2 ∧ resumeStream e2 0 = .ok e2) ∧
    resumeStream demoEngine 0 = .ok demoEngine := by
  have h := pause_resume_idempotent demoEngine 0 demoStream rfl
  exact ⟨h.1, h.2.1, h.2.2 (by decide) rfl⟩

/-! ## C6 — full Transport Buffer -/

/-- C6: on a running output stream, a write whose samples exceed the Transport
Buffer's remaining capacity fails immediately with `BufferFull`; in this pure
model `writeToStream` is a total function that produces no new engine state on
failure, so nothing is enqueued and the buffer contents are unchanged, and in
particular a buffer larger than the whole capacity always fails `BufferFull`
rather than blocking. -/
theorem write_full_buffer (e : Engine) (h : ℕ) (s : Stream)
    (hf : findStream e h = some s) (hdir : s.direction = .output)
    (hst : s.state = .running) (samples : List Sample) (hne : samples ≠ [])
    (hover : s.capacity < s.queued.length + samples.length) :
    writeToStream e h samples = .error .bufferFull := by
  simp [writeToStream, hf, hdir, hst, hne, hover]

/-- A concrete running output stream whose 2-sample Transport Buffer is full. -/
def demoFullStream : Stream :=
  ⟨"dev0", .output, demoConfig, .running, false, 2, [Sample.nan, Sample.nan]⟩

/-- A concrete engine holding `demoFullStream` under handle 0. -/
def demoFullEngine : Engine := ⟨[], 1, [(0, demoFullStream)]⟩

/-- Witness for C6: a one-sample write into the full `demoFullStream`. -/
theorem write_full_buffer_witness :
    writeToStream demoFullEngine 0 [Sample.nan] = .error .bufferFull :=
  write_full_buffer demoFullEngine 0 demoFullStream rfl rfl rfl [Sample.nan]
    (by decide) (by decide)

/-! ## C9 — non-finite samples pass through unmodified -/

/-- C9: a write on a running output stream that fits the Transport Buffer
succeeds for arbitrary sample values — including `+∞`, `-∞` and `NaN` — and
appends the values to the buffer exactly as given: the engine performs no
clamping or sanitization. -/
theorem write_no_sanitization (e : Engine) (h : ℕ) (s : Stream)
    (hf : findStream e h = some s) (hdir : s.direction = .output)
    (hst : s.state = .running) (samples : List Sample) (hne : samples ≠ [])
    (hcap : s.queued.length + samples.length ≤ s.capacity) :
    writeToStream e h samples
      = .ok (updateStream e h (fun t => { t with queued := t.queued ++ samples })) ∧
    findStream (updateStream e h (fun t => { t with queued := t.queued ++ samples })) h
      = some { s with queued := s.queued ++ samples } := by
  constructor
  · simp [writeToStream, hf, hdir, hst, hne, Nat.not_lt.mpr hcap]
  · rw [findStream_updateStream, hf]; rfl

/-- Witness for C9: writing `[+∞, -∞, NaN]` to the concrete `demoEngine`. -/
theorem write_no_sanitization_witness :
    writeToStream demoEngine 0 [Sample.posInf, Sample.negInf, Sample.nan]
      = .ok (updateStream demoEngine 0
          (fun t => { t with queued := t.queued ++ [Sample.posInf, Sample.negInf, Sample.nan] })) ∧
    findStream (updateStream demoEngine 0
        (fun t => { t with queued := t.queued ++ [Sample.posInf, Sample.negInf, Sample.nan] })) 0
      = some { demoStream with queued := [Sample.posInf, Sample.negInf, Sample.nan] } :=
  write_no_sanitization demoEngine 0 demoStream rfl rfl rfl
    [Sample.posInf, Sample.negInf, Sample.nan] (by decide) (by decide)

/-! ## C3 — writes on a paused stream, and after resume -/

/-- The device of the C3 scenario: a 10 Hz mono f32 band (so the allocated
Transport Buffer holds exactly one sample). -/
def cexDevice : Device := ⟨"dev1", [], [⟨10, 10, 1, .f32⟩]⟩

/-- C3 scenario, fresh engine. -/
def cexE0 : Engine := ⟨[cexDevice], 0, []⟩

/-- C3 scenario after `createStream` (capacity 1, empty buffer). -/
def cexE1 : Engine :=
  ⟨[cexDevice], 1, [(0, ⟨"dev1", .output, ⟨10, 1, .f32⟩, .running, false, 1, []⟩)]⟩

/-- C3 scenario after one write (buffer full). -/
def cexE2 : Engine :=
  ⟨[cexDevice], 1, [(0, ⟨"dev1", .output, ⟨10, 1, .f32⟩, .running, false, 1, [Sample.nan]⟩)]⟩

/-- C3 scenario after `pauseStream`. -/
def cexE3 : Engine :=
  ⟨[cexDevice], 1, [(0, ⟨"dev1", .output, ⟨10, 1, .f32⟩, .paused, false, 1, [Sample.nan]⟩)]⟩

/-- C3 scenario after `resumeStream` (running again, buffer still full). -/
def cexE4 : Engine :=
  ⟨[cexDevice], 1, [(0, ⟨"dev1", .output, ⟨10, 1, .f32⟩, .running, false, 1, [Sample.nan]⟩)]⟩

/-- Counterexample to C3 as stated: a paused output stream whose Transport
Buffer is full.  The write while paused fails `StreamNotActive` as the claim
says, but after `resumeStream` the very same `writeToStream` call fails
`BufferFull` instead of succeeding.  Every state is reached through the
engine's own operations starting from a fresh engine. -/
theorem paused_write_resume_counterexample :
    createStream cexE0 "dev1" .output ⟨10, 1, .f32⟩ false = .ok (cexE1, 0) ∧
    writeToStream cexE1 0 [Sample.nan] = .ok cexE2 ∧
    pauseStream cexE2 0 = .ok cexE3 ∧
    writeToStream cexE3 0 [Sample.nan] = .error .streamNotActive ∧
    resumeStream cexE3 0 = .ok cexE4 ∧
    writeToStream cexE4 0 [Sample.nan] = .error .bufferFull ∧
    ¬ ∃ e'', writeToStream cexE4 0 [Sample.nan] = .ok e'' := by
  refine ⟨rfl, rfl, rfl, rfl, rfl, rfl, ?_⟩
  rintro ⟨e'', he⟩
  rw [show writeToStream cexE4 0 [Sample.nan]
      = Except.error CpalError.bufferFull from rfl] at he
  exact Except.noConfusion he

/-- C3 amended: on a paused output stream a non-empty write fails
`StreamNotActive` (producing no new state, so nothing is enqueued); after
`resumeStream` returns the stream to `Running`, the same write succeeds
provided the samples fit the Transport Buffer's remaining capacity. -/
theorem paused_write_resume_amended (e : Engine) (h : ℕ) (s : Stream)
    (hf : findStream e h = some s) (hdir : s.direction = .output)
    (hst : s.state = .paused) (samples : List Sample) (hne : samples ≠ []) :
    writeToStream e h samples = .error .streamNotActive ∧
    (∀ e', resumeStream e h = .ok e' →
      s.queued.length + samples.length ≤ s.capacity →
      ∃ e'', writeToStream e' h samples = .ok e'') := by
  constructor
  · simp [writeToStream, hf, hdir, hst, hne]
  · intro e' hres hcap
    have he' : e' = updateStream e h (fun t => { t with state := .running }) := by
      rw [resumeStream, hf] at hres
      exact (Except.ok.inj hres).symm
    subst he'
    have hf1 : findStream (updateStream e h (fun t => { t with state := .running })) h
        = some { s with state := .running } := by
      rw [findStream_updateStream, hf]; rfl
    refine ⟨updateStream (updateStream e h (fun t => { t with state := .running })) h
      (fun t => { t with queued := t.queued ++ samples }), ?_⟩
    simp [writeToStream, hf1, hdir, hne, Nat.not_lt.mpr hcap]

/-- A concrete engine holding a paused output stream under handle 0. -/
def demoPausedEngine : Engine :=
  ⟨[], 1, [(0, ⟨"dev0", .output, demoConfig, .paused, false, 8820, []⟩)]⟩

/-- Witness for the amended C3 on `demoPausedEngine`. -/
theorem paused_write_resume_amended_witness :
    writeToStream demoPausedEngine 0 [Sample.nan] = .error .streamNotActive ∧
    (∃ e'', writeToStream
        (updateStream demoPausedEngine 0 (fun t => { t with state := .running }))
        0 [Sample.nan] = .ok e'') := by
  have h := paused_write_resume_amended demoPausedEngine 0
    ⟨"dev0", .output, demoConfig, .paused, false, 8820, []⟩ rfl rfl rfl
    [Sample.nan] (by decide)
  exact ⟨h.1, h.2 _ rfl (by decide)⟩

/-! ## Sample Converter -/

/-- Modelled from the spec §4.4: float32 → int16 format conversion is a linear
rescaling of `[-1.0, 1.0]` onto the int16 fixed-point range, rounding to the
nearest integer and saturating at the range bounds.  Samples are represented
as exact rationals. -/
def f32ToI16 (x : ℚ) : ℤ :=
  max (-32768) (min 32767 (round (x * 32767)))

/-- Modelled from the spec §4.4: int16 → float32 conversion, the inverse
linear rescaling onto `[-1.0, 1.0]`. -/
def i16ToF32 (i : ℤ) : ℚ :=
  (i : ℚ) / 32767

/-- Modelled from the spec §4.4: channel adaptation of a single frame —
destination channel `i` receives source channel `i % src`. -/
def convertFrame (src dst : ℕ) (frame : List Sample) : List Sample :=
  (List.range dst).map (fun i => frame.getD (i % src) (Sample.finite 0))

/-- Modelled from the spec §4.4: channel adaptation of an interleaved buffer,
frame by frame (a trailing partial frame is dropped). -/
def convertChannels (src dst : ℕ) (samples : List Sample) : List Sample :=
  if _hsrc : src = 0 then []
  else if _hlen : samples.length < src then []
  else
    convertFrame src dst (samples.take src) ++ convertChannels src dst (samples.drop src)
termination_by samples.length
decreasing_by
  simp only [List.length_drop]
  omega

theorem convertChannels_nil (src dst : ℕ) : convertChannels src dst [] = [] := by
  rw [convertChannels]
  by_cases h : src = 0 <;> simp [h]

theorem convertChannels_frame_cons (src dst : ℕ) (hsrc : 0 < src)
    (fr rest : List Sample) (hfr : fr.length = src) :
    convertChannels src dst (fr ++ rest)
      = convertFrame src dst fr ++ convertChannels src dst rest := by
  rw [convertChannels]
  rw [dif_neg (Nat.pos_iff_ne_zero.mp hsrc)]
  have hlen : ¬(fr ++ rest).length < src := by
    simp only [List.length_append, hfr]
    omega
  rw [dif_neg hlen, List.take_left' hfr, List.drop_left' hfr]

/-! ## C7 — float32 ↔ int16 round trip -/

/-- C7: for every sample value in `[-1, 1]`, converting to int16 and back to
float32 lands within 1 LSB (`1/32768`) of the original value. -/
theorem f32_i16_roundtrip (x : ℚ) (h1 : -1 ≤ x) (h2 : x ≤ 1) :
    |i16ToF32 (f32ToI16 x) - x| ≤ 1 / 32768 := by
  have hy1 : -32767 ≤ x * 32767 := by nlinarith
  have hy2 : x * 32767 ≤ 32767 := by nlinarith
  have hround := abs_le.mp (abs_sub_round (x * 32767))
  have hrle : round (x * 32767) ≤ (32767 : ℤ) := by
    have hlt : ((round (x * 32767) : ℤ) : ℚ) < 32768 := by linarith [hround.1, hround.2]
    have : round (x * 32767) < (32768 : ℤ) := by exact_mod_cast hlt
    omega
  have hrge : (-32768 : ℤ) ≤ round (x * 32767) := by
    have hgt : (-32768 : ℚ) < ((round (x * 32767) : ℤ) : ℚ) := by
      linarith [hround.1, hround.2]
    have : (-32768 : ℤ) < round (x * 32767) := by exact_mod_cast hgt
    omega
  have hclamp : f32ToI16 x = round (x * 32767) := by
    rw [f32ToI16, min_eq_right hrle, max_eq_right hrge]
  rw [hclamp, i16ToF32]
  have hx : x = x * 32767 / 32767 := by norm_num
  rw [show ((round (x * 32767) : ℤ) : ℚ) / 32767 - x
      = ((round (x * 32767) : ℤ) : ℚ) / 32767 - x * 32767 / 32767 by rw [← hx],
    div_sub_div_same, abs_div, show |(32767 : ℚ)| = 32767 by norm_num]
  have habs : |((round (x * 32767) : ℤ) : ℚ) - x * 32767| ≤ 1 / 2 := by
    rw [abs_sub_comm]
    exact abs_sub_round (x * 32767)
  have hnn := abs_nonneg (((round (x * 32767) : ℤ) : ℚ) - x * 32767)
  linarith

/-- Witness for C7 at `x = 1/2` (which converts to 16384 and back to
`16384/32767`, an error of `1/65534`). -/
theorem f32_i16_roundtrip_witness :
    |i16ToF32 (f32ToI16 (1 / 2)) - 1 / 2| ≤ 1 / 32768 :=
  f32_i16_roundtrip (1 / 2) (by norm_num) (by norm_num)

/-! ## C8 — channel adaptation is channel-indexed pass-through -/

/-- C8: converting an interleaved stereo buffer `[L0, R0, L1, R1, …]` to mono
yields `[L0, L1, …]` — channel-0 pass-through, not averaging — and in
general, converting `src`-channel frames to `dst` channels duplicates source
channel `i % src` into destination channel `i`. -/
theorem channel_conversion_passthrough :
    (∀ pairs : List (Sample × Sample),
      convertChannels 2 1 (pairs.flatMap (fun p => [p.1, p.2])) = pairs.map Prod.fst) ∧
    (∀ src dst : ℕ, 0 < src → ∀ frames : List (List Sample),
      (∀ fr ∈ frames, fr.length = src) →
      convertChannels src dst frames.flatten
        = frames.flatMap
            (fun fr => (List.range dst).map (fun i => fr.getD (i % src) (Sample.finite 0)))) := by
  constructor
  · intro pairs
    induction pairs with
    | nil => simpa using convertChannels_nil 2 1
    | cons p t ih =>
      simp only [List.flatMap_cons]
      rw [convertChannels_frame_cons 2 1 (by norm_num) [p.1, p.2]
        (t.flatMap (fun q => [q.1, q.2])) rfl, ih]
      rfl
  · intro src dst hsrc frames hlen
    induction frames with
    | nil => simpa using convertChannels_nil src dst
    | cons fr t ih =>
      rw [List.flatten_cons,
        convertChannels_frame_cons src dst hsrc fr t.flatten (hlen fr (by simp)),
        List.flatMap_cons, ih (fun g hg => hlen g (by simp [hg]))]
      rfl

/-- Witness for C8: a concrete stereo buffer downmixed to mono, and a
concrete 3-channel buffer converted to 2 channels. -/
theorem channel_conversion_passthrough_witness :
    convertChannels 2 1
        [Sample.finite 1, Sample.finite 2, Sample.finite 3, Sample.finite 4]
      = [Sample.finite 1, Sample.finite 3] ∧
    convertChannels 3 2 [Sample.finite 5, Sample.finite 6, Sample.finite 7]
      = [Sample.finite 5, Sample.finite 6] := by
  constructor
  · have h := channel_conversion_passthrough.1
      [(Sample.finite 1, Sample.finite 2), (Sample.finite 3, Sample.finite 4)]
    simpa using h
  · have h := channel_conversion_passthrough.2 3 2 (by norm_num)
      [[Sample.finite 5, Sample.finite 6, Sample.finite 7]] (by simp)
    simpa [convertFrame] using h

end Cpal

namespace Loader

/-- `supportedPlatforms` from `src/index.js`. -/
def supportedPlatforms : List String := ["darwin", "linux", "win32"]

/-- `supportedArchs` from `src/index.js`. -/
def supportedArchs : List String := ["x64"]

/-- Embeds `getBinding` of `src/index.js`.  The native `require` chain (the
published `bin/<platform>-<arch>/index.node` path, falling back to the
development-root `index.node`) is abstracted as `loadResult`: the outcome the
binary load would produce if attempted, an opaque module handle on success or
a message on failure.  The platform and architecture checks run before any
load is attempted. -/
def getBinding (platform arch : String) (loadResult : Except String ℕ) :
    Except String ℕ :=
  if !(supportedPlatforms.contains platform) then
    .error ("Unsupported platform: " ++ platform ++ ". node-cpal supports: " ++
      String.intercalate ", " supportedPlatforms)
  else if !(supportedArchs.contains arch) then
    .error ("Unsupported architecture: " ++ arch ++ ". node-cpal supports: " ++
      String.intercalate ", " supportedArchs)
  else
    match loadResult with
    | .ok m => .ok m
    | .error msg =>
      .error ("Failed to load node-cpal binary for " ++ platform ++ "-" ++
        arch ++ ": " ++ msg)

/-- C10: whenever the architecture is not `x64` or the platform is not one of
`darwin`/`linux`/`win32`, module loading throws before any native binary is
attempted — the result is an error and is independent of what the binary load
would have produced — with the `Unsupported platform: ...` message when the
platform is unsupported and the `Unsupported architecture: ...` message when
the platform is supported but the architecture is not.  In particular no
operation of the library is reachable on ARM64 hosts. -/
theorem unsupported_host_rejected (platform arch : String)
    (hbad : platform ∉ supportedPlatforms ∨ arch ≠ "x64") :
    (∀ r₁ r₂ : Except String ℕ,
      getBinding platform arch r₁ = getBinding platform arch r₂) ∧
    (∃ msg, ∀ r : Except String ℕ, getBinding platform arch r = .error msg) ∧
    (platform ∉ supportedPlatforms → ∀ r : Except String ℕ,
      getBinding platform arch r = .error
        ("Unsupported platform: " ++ platform ++
          ". node-cpal supports: " ++ "darwin, linux, win32")) ∧
    (platform ∈ supportedPlatforms → arch ≠ "x64" → ∀ r : Except String ℕ,
      getBinding platform arch r = .error
        ("Unsupported architecture: " ++ arch ++
          ". node-cpal supports: " ++ "x64")) := by
  by_cases hp : platform ∈ supportedPlatforms
  · have harch : arch ≠ "x64" := hbad.resolve_left (fun hc => hc hp)
    have hpc : supportedPlatforms.contains platform = true := by simpa using hp
    have hac : supportedArchs.contains arch = false := by
      simp [supportedArchs, harch]
    have hmain : ∀ r : Except String ℕ, getBinding platform arch r = .error
        ("Unsupported architecture: " ++ arch ++
          ". node-cpal supports: " ++ "x64") := by
      intro r
      rw [getBinding.eq_def, hpc, hac]
      rfl
    exact ⟨fun r₁ r₂ => (hmain r₁).trans (hmain r₂).symm, ⟨_, hmain⟩,
      fun hnp => absurd hp hnp, fun _ _ => hmain⟩
  · have hpc : supportedPlatforms.contains platform = false := by
      simpa using hp
    have hmain : ∀ r : Except String ℕ, getBinding platform arch r = .error
        ("Unsupported platform: " ++ platform ++
          ". node-cpal supports: " ++ "darwin, linux, win32") := by
      intro r
      rw [getBinding.eq_def, hpc]
      rfl
    exact ⟨fun r₁ r₂ => (hmain r₁).trans (hmain r₂).symm, ⟨_, hmain⟩,
      fun _ => hmain, fun hpmem => absurd hpmem hp⟩

/-- Witness for C10: a Linux ARM64 host — advertised in the README but
rejected before the binary load — and an unsupported platform. -/
theorem unsupported_host_rejected_witness :
    getBinding "linux" "arm64" (.ok 0)
      = .error "Unsupported architecture: arm64. node-cpal supports: x64" ∧
    getBinding "freebsd" "x64" (.ok 0)
      = .error "Unsupported platform: freebsd. node-cpal supports: darwin, linux, win32" := by
  constructor
  · have h := unsupported_host_rejected "linux" "arm64" (Or.inr (by decide))
    exact h.2.2.2 (by decide) (by decide) (Except.ok 0)
  · have h := unsupported_host_rejected "freebsd" "x64" (Or.inl (by decide))
    exact h.2.2.1 (by decide) (Except.ok 0)

end Loader
